import Mathlib

/-!
Shallow embedding of `helper.go` from the `libvirt-helper` repository.

The program is a CLI shim over the external libvirt library. We model the
external library (connection, domains, file system) as a capability record
`Env`; each Go function is translated into a Lean function that threads an
explicit process state `ProcState` recording the text written to standard
output, the trace of capability calls issued, and whether `os.Exit` was
called (and with which code).
-/

namespace LibvirtHelper

/-- The double-quote character, written via its code point. -/
def quoteChar : Char := Char.ofNat 34

/-- Embedding of the Go expression `strings.ReplaceAll(s, "\"", "")` used in
`herr` and `hok`: replacing every occurrence of the one-character pattern by
the empty string removes every double-quote character. -/
def stripQuotes (s : String) : String :=
  String.mk (s.data.filter (fun c => c ≠ quoteChar))

/-- Abstract identity of a non-nil libvirt domain handle. -/
abbrev DomainId := Nat

/-- Embedding of Go `libvirt.DomainInfo` (the fields the program reads).
`state` is the C enum value; `maxMem` and `memory` are in kilobytes. -/
structure DomainInfo where
  state : Nat
  maxMem : Nat
  memory : Nat
  nrVirtCpu : Nat
  cpuTime : Nat
deriving DecidableEq

/-- The zero value of `libvirt.DomainInfo`. -/
def zeroDomainInfo : DomainInfo :=
  { state := 0, maxMem := 0, memory := 0, nrVirtCpu := 0, cpuTime := 0 }

/- libvirt C enum constants used by the program. -/
def DOMAIN_NOSTATE : Nat := 0
def DOMAIN_RUNNING : Nat := 1
def DOMAIN_BLOCKED : Nat := 2
def DOMAIN_PAUSED : Nat := 3
def DOMAIN_SHUTDOWN : Nat := 4
def DOMAIN_SHUTOFF : Nat := 5
def DOMAIN_CRASHED : Nat := 6
def DOMAIN_PMSUSPENDED : Nat := 7
def DOMAIN_UNDEFINE_KEEP_NVRAM : Nat := 8
def DOMAIN_REBOOT_DEFAULT : Nat := 0
def CONNECT_LIST_DOMAINS_ACTIVE : Nat := 1
def CONNECT_LIST_DOMAINS_INACTIVE : Nat := 2
def CONNECT_LIST_DOMAINS_RUNNING : Nat := 16
def DOMAIN_INTERFACE_ADDRESSES_SRC_AGENT : Nat := 1

/-- Modulus of Go's `uint64` arithmetic. -/
def UINT64_MOD : Nat := 2 ^ 64

/-- One interface record as returned by `ListAllInterfaceAddresses`:
the interface name and the list of address strings. -/
structure IfaceRecord where
  name : String
  addrs : List String
deriving DecidableEq

/-- The external capability surface (libvirt library plus `os.ReadFile`),
modelled as a black box. Domain-valued arguments are `Option DomainId`
because Go's `*libvirt.Domain` may be its zero value `nil` after a failed
lookup (the program keeps running and passes that nil on). -/
structure Env where
  lookupDomainByName : String → Except String DomainId
  getInfo : Option DomainId → Except String DomainInfo
  domainDefineXML : String → Except String DomainId
  undefineFlags : Option DomainId → Nat → Except String Unit
  rebootDom : Option DomainId → Nat → Except String Unit
  resetDom : Option DomainId → Nat → Except String Unit
  shutdownDom : Option DomainId → Except String Unit
  destroyDom : Option DomainId → Except String Unit
  createDom : Option DomainId → Except String Unit
  suspendDom : Option DomainId → Except String Unit
  resumeDom : Option DomainId → Except String Unit
  readFile : String → Except String String
  listAllDomains : Nat → Except String (List DomainId)
  getName : DomainId → Except String String
  listAllInterfaceAddresses : DomainId → Nat → Except String (List IfaceRecord)

/-- One entry of the capability-call trace. -/
inductive CapCall where
  | lookupDomainByName (name : String)
  | getInfo (d : Option DomainId)
  | domainDefineXML (xml : String)
  | undefineFlags (d : Option DomainId) (flags : Nat)
  | rebootDom (d : Option DomainId) (flags : Nat)
  | resetDom (d : Option DomainId) (flags : Nat)
  | shutdownDom (d : Option DomainId)
  | destroyDom (d : Option DomainId)
  | createDom (d : Option DomainId)
  | suspendDom (d : Option DomainId)
  | resumeDom (d : Option DomainId)
  | readFile (path : String)
  | listAllDomains (flags : Nat)
  | getName (d : DomainId)
  | listAllInterfaceAddresses (d : DomainId) (src : Nat)
  | freeDom (d : DomainId)
deriving DecidableEq

/-- Process state: text written to standard output so far, trace of
capability calls issued so far, and the `os.Exit` code when one was called.
Only `hok` and `hret` call `os.Exit`, and always at the end of a handler,
so no short-circuiting machinery is needed. -/
structure ProcState where
  out : String
  calls : List CapCall
  exited : Option Nat
deriving DecidableEq

/-- The state at process start. -/
def initState : ProcState := { out := "", calls := [], exited := none }

/-- Append a capability call to the trace. -/
def callCap (c : CapCall) (s : ProcState) : ProcState :=
  { s with calls := s.calls ++ [c] }

/-- The error component of a Go `(value, err)` return. -/
def exErr {α : Type} : Except String α → Option String
  | .error e => some e
  | .ok _ => none

/-- The value component of a Go `(value, err)` return, with the type's
zero value substituted on error (Go leaves the variable at the library's
returned value, which is the zero value on the error paths modelled here). -/
def exGetD {α : Type} (r : Except String α) (dflt : α) : α :=
  match r with
  | .ok a => a
  | .error _ => dflt

/-- The `*Domain` result of a fallible lookup/define: `none` is Go `nil`. -/
def exDom (r : Except String DomainId) : Option DomainId :=
  match r with
  | .ok d => some d
  | .error _ => none

/-- Embedding of `herr`: on a non-nil error, print the quote-stripped
message and a newline to standard output; never exits (the `os.Exit(1)`
in the source is commented out). On a nil error, do nothing. -/
def herr (e : Option String) (s : ProcState) : ProcState :=
  match e with
  | none => s
  | some msg => { s with out := s.out ++ stripQuotes msg ++ "\n" }

/-- The exact text `hok` prints for a message: the Go format string is the
raw literal `\x7b"ok":"%v"\x7d` applied to the quote-stripped message. -/
def hokPayload (message : String) : String :=
  "\x7b\"ok\":\"" ++ stripQuotes message ++ "\"\x7d"

/-- Embedding of `hok`: print the payload and call `os.Exit(0)`. -/
def hok (message : String) (s : ProcState) : ProcState :=
  { s with out := s.out ++ hokPayload message, exited := some 0 }

/-- Embedding of `hret`: `json.Marshal` the argument, print the resulting
text and call `os.Exit(0)`. Serialization is performed by the caller in
this embedding (each call site passes the marshalled text); `json.Marshal`
cannot fail on the payload shapes the program uses, so the inner
`herr(err)` is the nil-error no-op. -/
def hret (marshalled : String) (s : ProcState) : ProcState :=
  { s with out := s.out ++ marshalled, exited := some 0 }

/-- Embedding of Go `VirtualMachineStatus` (a string type). -/
abbrev VirtualMachineStatus := String

def VirtStatePending : VirtualMachineStatus := "pending"
def VirtStateRunning : VirtualMachineStatus := "running"
def VirtStateBlocked : VirtualMachineStatus := "blocked"
def VirtStatePaused : VirtualMachineStatus := "paused"
def VirtStateShutdown : VirtualMachineStatus := "shutdown"
def VirtStateShutoff : VirtualMachineStatus := "shutoff"
def VirtStateCrashed : VirtualMachineStatus := "crashed"
def VirtStateHybernating : VirtualMachineStatus := "hybernating"

/-- Embedding of the Go struct `VirtualMachineStateInfo`. -/
structure VirtualMachineStateInfo where
  State : VirtualMachineStatus
  MaxMemoryBytes : Nat
  MemoryBytes : Nat
  CpuTime : Nat
  CpuCount : Nat
deriving DecidableEq

/-- `json.Marshal` of a `VirtualMachineStateInfo`: fields in declaration
order; the string field quoted (none of the eight status strings needs
escaping); the unsigned fields in decimal. -/
def marshalStateInfo (i : VirtualMachineStateInfo) : String :=
  "\x7b\"State\":\"" ++ i.State ++ "\",\"MaxMemoryBytes\":" ++ toString i.MaxMemoryBytes
    ++ ",\"MemoryBytes\":" ++ toString i.MemoryBytes
    ++ ",\"CpuTime\":" ++ toString i.CpuTime
    ++ ",\"CpuCount\":" ++ toString i.CpuCount ++ "\x7d"

/-- `json.Marshal` of a Go `*libvirt.Domain`: a nil pointer marshals to
`null`; a non-nil `Domain` struct has no exported fields, so it marshals
to the empty JSON object. -/
def marshalDomainPtr : Option DomainId → String
  | none => "null"
  | some _ => "\x7b\x7d"

/-- Embedding of `GetVirtualMachineStateInfo`: look the domain up by name,
query its info, convert the kilobyte memory figures to bytes in `uint64`
arithmetic, and translate the state code through the source's `switch`
(no `default` case: an unmapped code leaves `State` at the string zero
value). On a failed `GetInfo` the Go code would go on to dereference a nil
`*DomainInfo`; the embedding substitutes the zero `DomainInfo` there, and
no claim is settled on that path. -/
def GetVirtualMachineStateInfo (env : Env) (vm : String) (s : ProcState) :
    VirtualMachineStateInfo × ProcState :=
  let lookupRes := env.lookupDomainByName vm
  let s := callCap (CapCall.lookupDomainByName vm) s
  let d := exDom lookupRes
  let s := herr (exErr lookupRes) s
  let infoRes := env.getInfo d
  let s := callCap (CapCall.getInfo d) s
  let s := herr (exErr infoRes) s
  let dominfo := exGetD infoRes zeroDomainInfo
  let VmStateInfo : VirtualMachineStateInfo :=
    { State :=
        if dominfo.state = DOMAIN_NOSTATE then VirtStatePending
        else if dominfo.state = DOMAIN_RUNNING then VirtStateRunning
        else if dominfo.state = DOMAIN_BLOCKED then VirtStateBlocked
        else if dominfo.state = DOMAIN_PAUSED then VirtStatePaused
        else if dominfo.state = DOMAIN_SHUTDOWN then VirtStateShutdown
        else if dominfo.state = DOMAIN_SHUTOFF then VirtStateShutoff
        else if dominfo.state = DOMAIN_CRASHED then VirtStateCrashed
        else if dominfo.state = DOMAIN_PMSUSPENDED then VirtStateHybernating
        else ""
      MaxMemoryBytes := dominfo.maxMem * 1024 % UINT64_MOD
      MemoryBytes := dominfo.memory * 1024 % UINT64_MOD
      CpuTime := dominfo.cpuTime
      CpuCount := dominfo.nrVirtCpu }
  (VmStateInfo, s)

/-- Embedding of `VirtualMachineState`. -/
def VirtualMachineState (env : Env) (vm : String) (s : ProcState) : ProcState :=
  let res := GetVirtualMachineStateInfo env vm s
  hret (marshalStateInfo res.1) res.2

/-- Embedding of `VirtualMachineCreate`: read the template file (on error
`xml` is the nil byte slice, i.e. the empty string, and execution
continues), define the domain from it, and `hret` the resulting `*Domain`. -/
def VirtualMachineCreate (env : Env) (xmlTemplate : String) (s : ProcState) : ProcState :=
  let readRes := env.readFile xmlTemplate
  let s := callCap (CapCall.readFile xmlTemplate) s
  let s := herr (exErr readRes) s
  let xml := exGetD readRes ""
  let defRes := env.domainDefineXML xml
  let s := callCap (CapCall.domainDefineXML xml) s
  let d := exDom defRes
  let s := herr (exErr defRes) s
  hret (marshalDomainPtr d) s

/-- Embedding of `VirtualMachineDelete`. -/
def VirtualMachineDelete (env : Env) (vm : String) (s : ProcState) : ProcState :=
  let lookupRes := env.lookupDomainByName vm
  let s := callCap (CapCall.lookupDomainByName vm) s
  let d := exDom lookupRes
  let s := herr (exErr lookupRes) s
  let undefRes := env.undefineFlags d DOMAIN_UNDEFINE_KEEP_NVRAM
  let s := callCap (CapCall.undefineFlags d DOMAIN_UNDEFINE_KEEP_NVRAM) s
  let s := herr (exErr undefRes) s
  hok (vm ++ " was deleted") s

/-- Embedding of `VirtualMachineSoftReboot`. -/
def VirtualMachineSoftReboot (env : Env) (vm : String) (s : ProcState) : ProcState :=
  let lookupRes := env.lookupDomainByName vm
  let s := callCap (CapCall.lookupDomainByName vm) s
  let d := exDom lookupRes
  let s := herr (exErr lookupRes) s
  let opRes := env.rebootDom d DOMAIN_REBOOT_DEFAULT
  let s := callCap (CapCall.rebootDom d DOMAIN_REBOOT_DEFAULT) s
  let s := herr (exErr opRes) s
  hok (vm ++ " was soft-rebooted successfully") s

/-- Embedding of `VirtualMachineHardReboot`. -/
def VirtualMachineHardReboot (env : Env) (vm : String) (s : ProcState) : ProcState :=
  let lookupRes := env.lookupDomainByName vm
  let s := callCap (CapCall.lookupDomainByName vm) s
  let d := exDom lookupRes
  let s := herr (exErr lookupRes) s
  let opRes := env.resetDom d 0
  let s := callCap (CapCall.resetDom d 0) s
  let s := herr (exErr opRes) s
  hok (vm ++ " was hard-rebooted successfully") s

/-- Embedding of `VirtualMachineShutdown`. -/
def VirtualMachineShutdown (env : Env) (vm : String) (s : ProcState) : ProcState :=
  let lookupRes := env.lookupDomainByName vm
  let s := callCap (CapCall.lookupDomainByName vm) s
  let d := exDom lookupRes
  let s := herr (exErr lookupRes) s
  let opRes := env.shutdownDom d
  let s := callCap (CapCall.shutdownDom d) s
  let s := herr (exErr opRes) s
  hok (vm ++ " was shutdown successfully") s

/-- Embedding of `VirtualMachineShutoff`. -/
def VirtualMachineShutoff (env : Env) (vm : String) (s : ProcState) : ProcState :=
  let lookupRes := env.lookupDomainByName vm
  let s := callCap (CapCall.lookupDomainByName vm) s
  let d := exDom lookupRes
  let s := herr (exErr lookupRes) s
  let opRes := env.destroyDom d
  let s := callCap (CapCall.destroyDom d) s
  let s := herr (exErr opRes) s
  hok (vm ++ " was shutoff successfully") s

/-- Embedding of `VirtualMachineStart`. -/
def VirtualMachineStart (env : Env) (vm : String) (s : ProcState) : ProcState :=
  let lookupRes := env.lookupDomainByName vm
  let s := callCap (CapCall.lookupDomainByName vm) s
  let d := exDom lookupRes
  let s := herr (exErr lookupRes) s
  let opRes := env.createDom d
  let s := callCap (CapCall.createDom d) s
  let s := herr (exErr opRes) s
  hok (vm ++ " was started") s

/-- Embedding of `VirtualMachinePause`. -/
def VirtualMachinePause (env : Env) (vm : String) (s : ProcState) : ProcState :=
  let lookupRes := env.lookupDomainByName vm
  let s := callCap (CapCall.lookupDomainByName vm) s
  let d := exDom lookupRes
  let s := herr (exErr lookupRes) s
  let opRes := env.suspendDom d
  let s := callCap (CapCall.suspendDom d) s
  let s := herr (exErr opRes) s
  hok (vm ++ " is paused") s

/-- Embedding of `VirtualMachineResume`. -/
def VirtualMachineResume (env : Env) (vm : String) (s : ProcState) : ProcState :=
  let lookupRes := env.lookupDomainByName vm
  let s := callCap (CapCall.lookupDomainByName vm) s
  let d := exDom lookupRes
  let s := herr (exErr lookupRes) s
  let opRes := env.resumeDom d
  let s := callCap (CapCall.resumeDom d) s
  let s := herr (exErr opRes) s
  hok (vm ++ " was resumed") s

/-- Go `fmt` left-justified minimum-width padding (`%-Nv`): pad with
spaces on the right up to width `n`, never truncating. -/
def padRight (s : String) (n : Nat) : String :=
  s ++ String.mk (List.replicate (n - s.length) (Char.ofNat 32))

/-- The loop body of `VirtualMachinesIps`: accumulates the builder text in
the first component and the process state in the second; per-domain errors
are printed directly (so they precede the built text), and the per-domain
reference is freed after use. -/
def ipsStep (env : Env) (bs : String × ProcState) (domain : DomainId) : String × ProcState :=
  let nameRes := env.getName domain
  let s := callCap (CapCall.getName domain) bs.2
  let b := bs.1 ++ "Domain - " ++ exGetD nameRes "" ++ ":\n"
  let s := herr (exErr nameRes) s
  let ifRes := env.listAllInterfaceAddresses domain DOMAIN_INTERFACE_ADDRESSES_SRC_AGENT
  let s := callCap (CapCall.listAllInterfaceAddresses domain DOMAIN_INTERFACE_ADDRESSES_SRC_AGENT) s
  let s := herr (exErr ifRes) s
  let b := (exGetD ifRes []).foldl (fun b entry =>
    let b := b ++ "interface - " ++ entry.name ++ ", address - "
    let b := entry.addrs.foldl (fun b addr => b ++ addr ++ " ") b
    b ++ "\n") b
  let s := callCap (CapCall.freeDom domain) s
  (b, s)

/-- Embedding of `VirtualMachinesIps`. Output is accumulated in a local
`strings.Builder` and printed only at the end, so `herr` error lines
(printed directly) come before the built text. -/
def VirtualMachinesIps (env : Env) (s : ProcState) : ProcState :=
  let listRes := env.listAllDomains CONNECT_LIST_DOMAINS_RUNNING
  let s := callCap (CapCall.listAllDomains CONNECT_LIST_DOMAINS_RUNNING) s
  let s := herr (exErr listRes) s
  let AllDomains := exGetD listRes []
  let b := "There are " ++ toString AllDomains.length ++ " running domains:\n"
  let bs := AllDomains.foldl (ipsStep env) (b, s)
  { bs.2 with out := bs.2.out ++ bs.1 }

/-- The loop body of `PrintVirtualMachinesStatus`: get the domain's name,
query its state via `GetVirtualMachineStateInfo` (a fresh lookup by that
name), and print one fixed-width table row. -/
def printStatusRow (env : Env) (s : ProcState) (domain : DomainId) : ProcState :=
  let nameRes := env.getName domain
  let s := callCap (CapCall.getName domain) s
  let s := herr (exErr nameRes) s
  let DomainName := exGetD nameRes ""
  let res := GetVirtualMachineStateInfo env DomainName s
  { res.2 with out := res.2.out ++ padRight DomainName 30 ++ " " ++ padRight res.1.State 15 ++ "\n" }

/-- Embedding of `PrintVirtualMachinesStatus`. -/
def PrintVirtualMachinesStatus (env : Env) (domains : List DomainId) (s : ProcState) : ProcState :=
  domains.foldl (printStatusRow env) s

/-- Embedding of `VirtualMachinesStateAll`. -/
def VirtualMachinesStateAll (env : Env) (s : ProcState) : ProcState :=
  let actRes := env.listAllDomains CONNECT_LIST_DOMAINS_ACTIVE
  let s := callCap (CapCall.listAllDomains CONNECT_LIST_DOMAINS_ACTIVE) s
  let s := herr (exErr actRes) s
  let inactRes := env.listAllDomains CONNECT_LIST_DOMAINS_INACTIVE
  let s := callCap (CapCall.listAllDomains CONNECT_LIST_DOMAINS_INACTIVE) s
  let s := herr (exErr inactRes) s
  let AllDomainsActive := exGetD actRes []
  let AllDomainsInactiv := exGetD inactRes []
  let OutputString := "There are " ++ toString (AllDomainsActive.length + AllDomainsInactiv.length)
    ++ " domains: " ++ toString AllDomainsActive.length ++ " active and "
    ++ toString AllDomainsInactiv.length ++ " inactive"
  let s := { s with out := s.out ++ OutputString ++ "\n" }
  let s := PrintVirtualMachinesStatus env AllDomainsActive s
  PrintVirtualMachinesStatus env AllDomainsInactiv s

/-- The command-line flags, with their `pflag` default values. -/
structure Flags where
  state : Bool := false
  softReboot : Bool := false
  hardReboot : Bool := false
  shutdown : Bool := false
  shutoff : Bool := false
  start : Bool := false
  pause : Bool := false
  resume : Bool := false
  create : Bool := false
  delete : Bool := false
  ips : Bool := false
  showAll : Bool := false
  vm : String := ""
  xmlTemplate : String := ""
deriving DecidableEq

/-- The twelve command selectors, one per boolean flag. -/
inductive Cmd where
  | state | softReboot | hardReboot | shutdown | shutoff | start
  | pause | resume | create | delete | ips | showAll
deriving DecidableEq

/-- Whether a given command's flag is set. -/
def flagOf (f : Flags) : Cmd → Bool
  | .state => f.state
  | .softReboot => f.softReboot
  | .hardReboot => f.hardReboot
  | .shutdown => f.shutdown
  | .shutoff => f.shutoff
  | .start => f.start
  | .pause => f.pause
  | .resume => f.resume
  | .create => f.create
  | .delete => f.delete
  | .ips => f.ips
  | .showAll => f.showAll

/-- The fixed priority order of the `switch` in `main`. -/
def cmdOrder : List Cmd :=
  [.state, .softReboot, .hardReboot, .shutdown, .shutoff, .start,
   .pause, .resume, .create, .delete, .ips, .showAll]

/-- Which case of the `switch` in `main` is taken: the first flag that is
set, in source order; `none` when no flag is set. -/
def selectCommand (f : Flags) : Option Cmd :=
  if f.state then some .state
  else if f.softReboot then some .softReboot
  else if f.hardReboot then some .hardReboot
  else if f.shutdown then some .shutdown
  else if f.shutoff then some .shutoff
  else if f.start then some .start
  else if f.pause then some .pause
  else if f.resume then some .resume
  else if f.create then some .create
  else if f.delete then some .delete
  else if f.ips then some .ips
  else if f.showAll then some .showAll
  else none

/-- Run the handler of one command, as dispatched by `main`'s `switch`. -/
def runCmd (env : Env) (f : Flags) (s : ProcState) : Cmd → ProcState
  | .state => VirtualMachineState env f.vm s
  | .softReboot => VirtualMachineSoftReboot env f.vm s
  | .hardReboot => VirtualMachineHardReboot env f.vm s
  | .shutdown => VirtualMachineShutdown env f.vm s
  | .shutoff => VirtualMachineShutoff env f.vm s
  | .start => VirtualMachineStart env f.vm s
  | .pause => VirtualMachinePause env f.vm s
  | .resume => VirtualMachineResume env f.vm s
  | .create => VirtualMachineCreate env f.xmlTemplate s
  | .delete => VirtualMachineDelete env f.vm s
  | .ips => VirtualMachinesIps env s
  | .showAll => VirtualMachinesStateAll env s

/-- Embedding of `main` after a successful `LibvirtInit`: the `switch`
takes the case of the first set flag (`selectCommand`) and runs its body
(`runCmd`); when no flag is set, `main` returns without doing anything. -/
def runMain (env : Env) (f : Flags) : ProcState :=
  match selectCommand f with
  | some c => runCmd env f initState c
  | none => initState

/-- The process exit status of a finished run: the `os.Exit` code when one
was called, else 0 (normal return from `main`). -/
def processExitCode (s : ProcState) : Nat := (s.exited).getD 0

/-- What `herr` writes for a given error value. -/
def herrText : Option String → String
  | none => ""
  | some m => stripQuotes m ++ "\n"

/-- Recognizer for lookup calls in the trace. -/
def isLookupCall : CapCall → Bool
  | .lookupDomainByName _ => true
  | _ => false

/-- Recognizer for undefine calls in the trace. -/
def isUndefineCall : CapCall → Bool
  | .undefineFlags _ _ => true
  | _ => false

/-- Number of domain lookups a run has performed. -/
def lookupCount (s : ProcState) : Nat := (s.calls.filter isLookupCall).length

/-- Number of `getInfo` queries a run has performed. -/
def isGetInfoCall : CapCall → Bool
  | .getInfo _ => true
  | _ => false

/-- Number of `getInfo` queries a run has performed. -/
def getInfoCount (s : ProcState) : Nat := (s.calls.filter isGetInfoCall).length

/-- A test environment on which every capability call fails. -/
def failEnv : Env where
  lookupDomainByName := fun _ => .error "no lookup"
  getInfo := fun _ => .error "no info"
  domainDefineXML := fun _ => .error "no define"
  undefineFlags := fun _ _ => .error "no undefine"
  rebootDom := fun _ _ => .error "no reboot"
  resetDom := fun _ _ => .error "no reset"
  shutdownDom := fun _ => .error "no shutdown"
  destroyDom := fun _ => .error "no destroy"
  createDom := fun _ => .error "no create"
  suspendDom := fun _ => .error "no suspend"
  resumeDom := fun _ => .error "no resume"
  readFile := fun _ => .error "no file"
  listAllDomains := fun _ => .error "no list"
  getName := fun _ => .error "no name"
  listAllInterfaceAddresses := fun _ _ => .error "no ifaces"

/-- A `DomainInfo` with a given state code and zero accounting fields. -/
def diWithState (code : Nat) : DomainInfo :=
  { state := code, maxMem := 0, memory := 0, nrVirtCpu := 0, cpuTime := 0 }

/-- Environment whose single domain reports the given state code. -/
def envState (code : Nat) : Env :=
  { failEnv with
      lookupDomainByName := fun _ => .ok 1
      getInfo := fun _ => .ok (diWithState code) }

/-- Environment for end-to-end scenario A: the VM `testbox` reports native
state `running`, 2048 KB memory, 4096 KB max memory, 2 vcpus, cpu time 500. -/
def envScenarioA : Env :=
  { failEnv with
      lookupDomainByName := fun name => if name = "testbox" then .ok 1 else .error "not found"
      getInfo := fun d =>
        if d = some 1 then
          .ok { state := 1, maxMem := 4096, memory := 2048, nrVirtCpu := 2, cpuTime := 500 }
        else .error "bad domain" }

/-- Environment for end-to-end scenario C: the template file is unreadable
and libvirt rejects the empty XML document. -/
def envScenarioC : Env :=
  { failEnv with
      readFile := fun _ => .error "open /no/such/file: no such file or directory"
      domainDefineXML := fun _ => .error "empty xml" }

/-- Environment on which both the lookup and the undefine call fail. -/
def envTwoErrors : Env :=
  { failEnv with
      lookupDomainByName := fun _ => .error "lookup failed"
      undefineFlags := fun _ _ => .error "undefine failed" }

/-- Environment on which deleting `testbox` succeeds. -/
def envDeleteOk : Env :=
  { failEnv with
      lookupDomainByName := fun name => if name = "testbox" then .ok 2 else .error "not found"
      undefineFlags := fun _ _ => .ok () }

/-- Environment with two active domains (and none inactive), each of which
can be looked up by its name and reports the `running` state. -/
def envTwoDomains : Env :=
  { failEnv with
      listAllDomains := fun flags =>
        if flags = CONNECT_LIST_DOMAINS_ACTIVE then .ok [1, 2] else .ok []
      getName := fun d => .ok (if d = 1 then "alpha" else "beta")
      lookupDomainByName := fun name => .ok (if name = "alpha" then 1 else 2)
      getInfo := fun _ => .ok (diWithState 1) }

/-- Flags of the invocation `--delete --vm=x`. -/
def flagsDeleteX : Flags := { delete := true, vm := "x" }

/-- The nine command flags that take their target from `--vm`. -/
def vmCmds : List Cmd :=
  [.state, .softReboot, .hardReboot, .shutdown, .shutoff, .start, .pause, .resume, .delete]

/-- Flags with exactly the given command flag set and every string flag at
its default (in particular `--vm` omitted, so `vm` is the empty string). -/
def onlyFlag : Cmd → Flags
  | .state => { state := true }
  | .softReboot => { softReboot := true }
  | .hardReboot => { hardReboot := true }
  | .shutdown => { shutdown := true }
  | .shutoff => { shutoff := true }
  | .start => { start := true }
  | .pause => { pause := true }
  | .resume => { resume := true }
  | .create => { create := true }
  | .delete => { delete := true }
  | .ips => { ips := true }
  | .showAll => { showAll := true }

theorem callCap_exited (c : CapCall) (s : ProcState) : (callCap c s).exited = s.exited := rfl

theorem callCap_out (c : CapCall) (s : ProcState) : (callCap c s).out = s.out := rfl

theorem callCap_calls (c : CapCall) (s : ProcState) : (callCap c s).calls = s.calls ++ [c] := rfl

theorem herr_exited (e : Option String) (s : ProcState) : (herr e s).exited = s.exited := by
  cases e <;> rfl

theorem herr_calls (e : Option String) (s : ProcState) : (herr e s).calls = s.calls := by
  cases e <;> rfl

theorem herr_out (e : Option String) (s : ProcState) : (herr e s).out = s.out ++ herrText e := by
  cases e with
  | none => simp [herr, herrText]
  | some m => simp [herr, herrText, String.append_assoc]

theorem GetVirtualMachineStateInfo_exited (env : Env) (vm : String) (s : ProcState) :
    (GetVirtualMachineStateInfo env vm s).2.exited = s.exited := by
  simp [GetVirtualMachineStateInfo, herr_exited, callCap_exited]

theorem GetVirtualMachineStateInfo_calls (env : Env) (vm : String) (s : ProcState) :
    (GetVirtualMachineStateInfo env vm s).2.calls =
      s.calls ++ [CapCall.lookupDomainByName vm,
        CapCall.getInfo (exDom (env.lookupDomainByName vm))] := by
  simp [GetVirtualMachineStateInfo, herr_calls, callCap_calls]

theorem VirtualMachineState_exited (env : Env) (vm : String) (s : ProcState) :
    (VirtualMachineState env vm s).exited = some 0 := rfl

theorem VirtualMachineCreate_exited (env : Env) (x : String) (s : ProcState) :
    (VirtualMachineCreate env x s).exited = some 0 := rfl

theorem VirtualMachineDelete_exited (env : Env) (vm : String) (s : ProcState) :
    (VirtualMachineDelete env vm s).exited = some 0 := rfl

theorem VirtualMachineSoftReboot_exited (env : Env) (vm : String) (s : ProcState) :
    (VirtualMachineSoftReboot env vm s).exited = some 0 := rfl

theorem VirtualMachineHardReboot_exited (env : Env) (vm : String) (s : ProcState) :
    (VirtualMachineHardReboot env vm s).exited = some 0 := rfl

theorem VirtualMachineShutdown_exited (env : Env) (vm : String) (s : ProcState) :
    (VirtualMachineShutdown env vm s).exited = some 0 := rfl

theorem VirtualMachineShutoff_exited (env : Env) (vm : String) (s : ProcState) :
    (VirtualMachineShutoff env vm s).exited = some 0 := rfl

theorem VirtualMachineStart_exited (env : Env) (vm : String) (s : ProcState) :
    (VirtualMachineStart env vm s).exited = some 0 := rfl

theorem VirtualMachinePause_exited (env : Env) (vm : String) (s : ProcState) :
    (VirtualMachinePause env vm s).exited = some 0 := rfl

theorem VirtualMachineResume_exited (env : Env) (vm : String) (s : ProcState) :
    (VirtualMachineResume env vm s).exited = some 0 := rfl

theorem ipsStep_exited (env : Env) (bs : String × ProcState) (d : DomainId) :
    (ipsStep env bs d).2.exited = bs.2.exited := by
  simp [ipsStep, herr_exited, callCap_exited]

theorem ipsFold_exited (env : Env) (l : List DomainId) (bs : String × ProcState) :
    (l.foldl (ipsStep env) bs).2.exited = bs.2.exited := by
  induction l generalizing bs with
  | nil => rfl
  | cons d ds ih => rw [List.foldl_cons, ih, ipsStep_exited]

theorem VirtualMachinesIps_exited (env : Env) (s : ProcState) :
    (VirtualMachinesIps env s).exited = s.exited := by
  simp [VirtualMachinesIps, ipsFold_exited, herr_exited, callCap_exited]

theorem printStatusRow_exited (env : Env) (s : ProcState) (d : DomainId) :
    (printStatusRow env s d).exited = s.exited := by
  simp [printStatusRow, GetVirtualMachineStateInfo_exited, herr_exited, callCap_exited]

theorem PrintVirtualMachinesStatus_exited (env : Env) (l : List DomainId) (s : ProcState) :
    (PrintVirtualMachinesStatus env l s).exited = s.exited := by
  unfold PrintVirtualMachinesStatus
  induction l generalizing s with
  | nil => rfl
  | cons d ds ih => rw [List.foldl_cons, ih, printStatusRow_exited]

theorem VirtualMachinesStateAll_exited (env : Env) (s : ProcState) :
    (VirtualMachinesStateAll env s).exited = s.exited := by
  simp [VirtualMachinesStateAll, PrintVirtualMachinesStatus_exited, herr_exited, callCap_exited]

/-- Every complete run of the program exits with status 0: the per-VM
handlers all terminate through `hok`/`hret` (exit code 0), the enumeration
handlers and the empty dispatch return normally from `main` (exit code 0). -/
theorem runMain_exit_zero (env : Env) (f : Flags) : processExitCode (runMain env f) = 0 := by
  have hz : ∀ {s : ProcState}, s.exited = some 0 → processExitCode s = 0 := by
    intro s h
    rw [processExitCode.eq_1, h]
    rfl
  have hn : ∀ {s : ProcState}, s.exited = none → processExitCode s = 0 := by
    intro s h
    rw [processExitCode.eq_1, h]
    rfl
  unfold runMain
  cases hc : selectCommand f with
  | none => rfl
  | some c =>
    cases c <;>
      first
        | exact hz (VirtualMachineState_exited _ _ _)
        | exact hz (VirtualMachineSoftReboot_exited _ _ _)
        | exact hz (VirtualMachineHardReboot_exited _ _ _)
        | exact hz (VirtualMachineShutdown_exited _ _ _)
        | exact hz (VirtualMachineShutoff_exited _ _ _)
        | exact hz (VirtualMachineStart_exited _ _ _)
        | exact hz (VirtualMachinePause_exited _ _ _)
        | exact hz (VirtualMachineResume_exited _ _ _)
        | exact hz (VirtualMachineCreate_exited _ _ _)
        | exact hz (VirtualMachineDelete_exited _ _ _)
        | exact hn ((VirtualMachinesIps_exited _ _).trans rfl)
        | exact hn ((VirtualMachinesStateAll_exited _ _).trans rfl)

theorem hok_calls (m : String) (s : ProcState) : (hok m s).calls = s.calls := rfl

theorem hret_calls (r : String) (s : ProcState) : (hret r s).calls = s.calls := rfl

theorem hok_out (m : String) (s : ProcState) : (hok m s).out = s.out ++ hokPayload m := rfl

theorem hret_out (r : String) (s : ProcState) : (hret r s).out = s.out ++ r := rfl

theorem lookupCount_herr (e : Option String) (s : ProcState) :
    lookupCount (herr e s) = lookupCount s := by
  cases e <;> rfl

theorem lookupCount_callCap_lookup (vm : String) (s : ProcState) :
    lookupCount (callCap (CapCall.lookupDomainByName vm) s) = lookupCount s + 1 := by
  simp [lookupCount, callCap, List.filter_append, isLookupCall]

theorem lookupCount_callCap (c : CapCall) (h : isLookupCall c = false) (s : ProcState) :
    lookupCount (callCap c s) = lookupCount s := by
  simp [lookupCount, callCap, List.filter_append, h]

theorem lookupCount_GetVirtualMachineStateInfo (env : Env) (vm : String) (s : ProcState) :
    lookupCount (GetVirtualMachineStateInfo env vm s).2 = lookupCount s + 1 := by
  simp [lookupCount, GetVirtualMachineStateInfo_calls, List.filter_append, isLookupCall]

theorem getInfoCount_GetVirtualMachineStateInfo (env : Env) (vm : String) (s : ProcState) :
    getInfoCount (GetVirtualMachineStateInfo env vm s).2 = getInfoCount s + 1 := by
  simp [getInfoCount, GetVirtualMachineStateInfo_calls, List.filter_append, isGetInfoCall]

theorem lookupCount_VirtualMachineState (env : Env) (vm : String) (s : ProcState) :
    lookupCount (VirtualMachineState env vm s) = lookupCount s + 1 := by
  simp [VirtualMachineState, lookupCount, hret_calls, GetVirtualMachineStateInfo_calls,
    List.filter_append, isLookupCall]

theorem lookupCount_VirtualMachineCreate (env : Env) (x : String) (s : ProcState) :
    lookupCount (VirtualMachineCreate env x s) = lookupCount s := by
  simp [VirtualMachineCreate, lookupCount, hret_calls, herr_calls, callCap_calls,
    List.filter_append, isLookupCall]

theorem lookupCount_VirtualMachineDelete (env : Env) (vm : String) (s : ProcState) :
    lookupCount (VirtualMachineDelete env vm s) = lookupCount s + 1 := by
  simp [VirtualMachineDelete, lookupCount, hok_calls, herr_calls, callCap_calls,
    List.filter_append, isLookupCall]

theorem lookupCount_VirtualMachineSoftReboot (env : Env) (vm : String) (s : ProcState) :
    lookupCount (VirtualMachineSoftReboot env vm s) = lookupCount s + 1 := by
  simp [VirtualMachineSoftReboot, lookupCount, hok_calls, herr_calls, callCap_calls,
    List.filter_append, isLookupCall]

theorem lookupCount_VirtualMachineHardReboot (env : Env) (vm : String) (s : ProcState) :
    lookupCount (VirtualMachineHardReboot env vm s) = lookupCount s + 1 := by
  simp [VirtualMachineHardReboot, lookupCount, hok_calls, herr_calls, callCap_calls,
    List.filter_append, isLookupCall]

theorem lookupCount_VirtualMachineShutdown (env : Env) (vm : String) (s : ProcState) :
    lookupCount (VirtualMachineShutdown env vm s) = lookupCount s + 1 := by
  simp [VirtualMachineShutdown, lookupCount, hok_calls, herr_calls, callCap_calls,
    List.filter_append, isLookupCall]

theorem lookupCount_VirtualMachineShutoff (env : Env) (vm : String) (s : ProcState) :
    lookupCount (VirtualMachineShutoff env vm s) = lookupCount s + 1 := by
  simp [VirtualMachineShutoff, lookupCount, hok_calls, herr_calls, callCap_calls,
    List.filter_append, isLookupCall]

theorem lookupCount_VirtualMachineStart (env : Env) (vm : String) (s : ProcState) :
    lookupCount (VirtualMachineStart env vm s) = lookupCount s + 1 := by
  simp [VirtualMachineStart, lookupCount, hok_calls, herr_calls, callCap_calls,
    List.filter_append, isLookupCall]

theorem lookupCount_VirtualMachinePause (env : Env) (vm : String) (s : ProcState) :
    lookupCount (VirtualMachinePause env vm s) = lookupCount s + 1 := by
  simp [VirtualMachinePause, lookupCount, hok_calls, herr_calls, callCap_calls,
    List.filter_append, isLookupCall]

theorem lookupCount_VirtualMachineResume (env : Env) (vm : String) (s : ProcState) :
    lookupCount (VirtualMachineResume env vm s) = lookupCount s + 1 := by
  simp [VirtualMachineResume, lookupCount, hok_calls, herr_calls, callCap_calls,
    List.filter_append, isLookupCall]

theorem printStatusRow_calls (env : Env) (s : ProcState) (d : DomainId) :
    (printStatusRow env s d).calls = s.calls ++
      [CapCall.getName d,
       CapCall.lookupDomainByName (exGetD (env.getName d) ""),
       CapCall.getInfo (exDom (env.lookupDomainByName (exGetD (env.getName d) "")))] := by
  simp [printStatusRow, GetVirtualMachineStateInfo_calls, herr_calls, callCap_calls]

theorem lookupCount_printStatusRow (env : Env) (s : ProcState) (d : DomainId) :
    lookupCount (printStatusRow env s d) = lookupCount s + 1 := by
  simp [lookupCount, printStatusRow_calls, List.filter_append, isLookupCall]

theorem lookupCount_PrintVirtualMachinesStatus (env : Env) (l : List DomainId) (s : ProcState) :
    lookupCount (PrintVirtualMachinesStatus env l s) = lookupCount s + l.length := by
  unfold PrintVirtualMachinesStatus
  induction l generalizing s with
  | nil => rfl
  | cons d ds ih =>
    rw [List.foldl_cons, ih, lookupCount_printStatusRow, List.length_cons]
    omega

theorem ipsStep_calls (env : Env) (bs : String × ProcState) (d : DomainId) :
    (ipsStep env bs d).2.calls = bs.2.calls ++
      [CapCall.getName d,
       CapCall.listAllInterfaceAddresses d DOMAIN_INTERFACE_ADDRESSES_SRC_AGENT,
       CapCall.freeDom d] := by
  simp [ipsStep, herr_calls, callCap_calls]

theorem lookupCount_ipsStep (env : Env) (bs : String × ProcState) (d : DomainId) :
    lookupCount (ipsStep env bs d).2 = lookupCount bs.2 := by
  simp [lookupCount, ipsStep_calls, List.filter_append, isLookupCall]

theorem lookupCount_ipsFold (env : Env) (l : List DomainId) (bs : String × ProcState) :
    lookupCount (l.foldl (ipsStep env) bs).2 = lookupCount bs.2 := by
  induction l generalizing bs with
  | nil => rfl
  | cons d ds ih => rw [List.foldl_cons, ih, lookupCount_ipsStep]

theorem lookupCount_VirtualMachinesIps (env : Env) (s : ProcState) :
    lookupCount (VirtualMachinesIps env s) = lookupCount s := by
  have h : (VirtualMachinesIps env s).calls =
      ((exGetD (env.listAllDomains CONNECT_LIST_DOMAINS_RUNNING) []).foldl (ipsStep env)
        ("There are "
            ++ toString (exGetD (env.listAllDomains CONNECT_LIST_DOMAINS_RUNNING) []).length
            ++ " running domains:\n",
          herr (exErr (env.listAllDomains CONNECT_LIST_DOMAINS_RUNNING))
            (callCap (CapCall.listAllDomains CONNECT_LIST_DOMAINS_RUNNING) s))).2.calls := rfl
  rw [lookupCount, h, ← lookupCount]
  rw [lookupCount_ipsFold, lookupCount_herr,
    lookupCount_callCap _ (by simp [isLookupCall])]

theorem lookupCount_setOut (s : ProcState) (x : String) :
    lookupCount { s with out := x } = lookupCount s := rfl

theorem lookupCount_VirtualMachinesStateAll (env : Env) (s : ProcState)
    (act inact : List DomainId)
    (ha : env.listAllDomains CONNECT_LIST_DOMAINS_ACTIVE = .ok act)
    (hi : env.listAllDomains CONNECT_LIST_DOMAINS_INACTIVE = .ok inact) :
    lookupCount (VirtualMachinesStateAll env s) =
      lookupCount s + act.length + inact.length := by
  simp only [VirtualMachinesStateAll, ha, hi, exGetD]
  rw [lookupCount_PrintVirtualMachinesStatus, lookupCount_PrintVirtualMachinesStatus,
    lookupCount_setOut, lookupCount_herr, lookupCount_callCap _ (by simp [isLookupCall]),
    lookupCount_herr, lookupCount_callCap _ (by simp [isLookupCall])]

/-- C1: a success report (`hok`/`hret`) writes its payload to standard
output and terminates the process with exit status 0; an error report
(`herr`) on a non-nil error only prints the message and leaves the exit
state untouched, so execution continues after it; no run of the program
ever exits with a non-zero status; and in one `--delete` invocation two
error lines print before a later success report. -/
theorem C1_reporter_asymmetry :
    (∀ m s, (hok m s).out = s.out ++ hokPayload m ∧ (hok m s).exited = some 0) ∧
    (∀ r s, (hret r s).out = s.out ++ r ∧ (hret r s).exited = some 0) ∧
    (∀ m s, (herr (some m) s).out = s.out ++ (stripQuotes m ++ "\n") ∧
      (herr (some m) s).exited = s.exited) ∧
    (∀ env f, processExitCode (runMain env f) = 0) ∧
    ((runMain envTwoErrors flagsDeleteX).out =
        "lookup failed\n" ++ "undefine failed\n" ++ hokPayload "x was deleted" ∧
      (runMain envTwoErrors flagsDeleteX).exited = some 0) := by
  exact ⟨fun m s => ⟨rfl, rfl⟩, fun r s => ⟨rfl, rfl⟩,
    fun m s => ⟨herr_out (some m) s, herr_exited _ _⟩,
    runMain_exit_zero, ⟨rfl, rfl⟩⟩

/-- C2 counterexample: on the invocation `--create --xml-template=/no/such/file`
(environment `envScenarioC`, where reading the file fails), the handler
falls through past the error report and does reach the success reporter:
the run terminates through `hret` with exit status 0, and the serialized
nil domain reference (`null`) is printed after the two error lines —
refuting the claim that no success payload is emitted. -/
theorem C2_counterexample :
    (VirtualMachineCreate envScenarioC "/no/such/file" initState).exited = some 0 ∧
    (VirtualMachineCreate envScenarioC "/no/such/file" initState).out =
      "open /no/such/file: no such file or directory\n" ++ "empty xml\n" ++ "null" :=
  ⟨rfl, rfl⟩

/-- C2 amended: for `--create --xml-template=p` where reading `p` fails,
the file-read error is reported, but execution falls through: the define
call is attempted with the empty contents, and the handler then reaches
the success reporter, emitting the serialization of the resulting (nil)
domain reference and exiting with status 0. -/
theorem C2_amended_create_falls_through (env : Env) (path msg : String)
    (h : env.readFile path = .error msg) :
    (VirtualMachineCreate env path initState).out =
      stripQuotes msg ++ "\n" ++ herrText (exErr (env.domainDefineXML "")) ++
        marshalDomainPtr (exDom (env.domainDefineXML "")) ∧
    (VirtualMachineCreate env path initState).exited = some 0 := by
  have hout : (VirtualMachineCreate env path initState).out =
      initState.out ++ herrText (exErr (env.readFile path))
        ++ herrText (exErr (env.domainDefineXML (exGetD (env.readFile path) "")))
        ++ marshalDomainPtr (exDom (env.domainDefineXML (exGetD (env.readFile path) ""))) := by
    show (hret (marshalDomainPtr (exDom (env.domainDefineXML (exGetD (env.readFile path) ""))))
      (herr (exErr (env.domainDefineXML (exGetD (env.readFile path) "")))
        (callCap (CapCall.domainDefineXML (exGetD (env.readFile path) ""))
          (herr (exErr (env.readFile path))
            (callCap (CapCall.readFile path) initState))))).out = _
    rw [hret_out, herr_out, callCap_out, herr_out, callCap_out]
  constructor
  · rw [hout, h]
    show "" ++ (stripQuotes msg ++ "\n")
        ++ herrText (exErr (env.domainDefineXML ""))
        ++ marshalDomainPtr (exDom (env.domainDefineXML "")) = _
    rw [String.empty_append]
  · rfl

/-- C2 amended, witnessed on the concrete scenario-C environment. -/
theorem C2_amended_witness :
    envScenarioC.readFile "/no/such/file" =
      .error "open /no/such/file: no such file or directory" ∧
    (VirtualMachineCreate envScenarioC "/no/such/file" initState).out =
      stripQuotes "open /no/such/file: no such file or directory" ++ "\n" ++
        herrText (exErr (envScenarioC.domainDefineXML "")) ++
        marshalDomainPtr (exDom (envScenarioC.domainDefineXML "")) ∧
    (VirtualMachineCreate envScenarioC "/no/such/file" initState).exited = some 0 :=
  ⟨rfl, (C2_amended_create_falls_through envScenarioC "/no/such/file" _ rfl).1,
    (C2_amended_create_falls_through envScenarioC "/no/such/file" _ rfl).2⟩

/-- The state-info record produced for a domain whose lookup and info
query succeed, with the lookup and query results resolved. -/
theorem GetVirtualMachineStateInfo_fst (env : Env) (vm : String) (s : ProcState)
    (d : DomainId) (di : DomainInfo) (hl : env.lookupDomainByName vm = .ok d)
    (hi : env.getInfo (some d) = .ok di) :
    (GetVirtualMachineStateInfo env vm s).1 =
      { State :=
          if di.state = DOMAIN_NOSTATE then VirtStatePending
          else if di.state = DOMAIN_RUNNING then VirtStateRunning
          else if di.state = DOMAIN_BLOCKED then VirtStateBlocked
          else if di.state = DOMAIN_PAUSED then VirtStatePaused
          else if di.state = DOMAIN_SHUTDOWN then VirtStateShutdown
          else if di.state = DOMAIN_SHUTOFF then VirtStateShutoff
          else if di.state = DOMAIN_CRASHED then VirtStateCrashed
          else if di.state = DOMAIN_PMSUSPENDED then VirtStateHybernating
          else ""
        MaxMemoryBytes := di.maxMem * 1024 % UINT64_MOD
        MemoryBytes := di.memory * 1024 % UINT64_MOD
        CpuTime := di.cpuTime
        CpuCount := di.nrVirtCpu } := by
  simp only [GetVirtualMachineStateInfo, hl, exDom, hi, exGetD]

/-- C3 counterexample: the claim fails at two concrete state codes. For
the unmapped code 8 the returned status is the status field's zero value,
the empty string, not an explicit \"unknown\" marker; and for the
pm-suspended code 7 the produced status string is the source's spelling
\"hybernating\", not the claimed \"hibernating\". -/
theorem C3_counterexample :
    (GetVirtualMachineStateInfo (envState 8) "vm" initState).1.State = "" ∧
    "" ≠ "unknown" ∧
    (GetVirtualMachineStateInfo (envState 7) "vm" initState).1.State = "hybernating" ∧
    "hybernating" ≠ "hibernating" := by
  refine ⟨rfl, ?_, rfl, ?_⟩ <;> decide

/-- C3 amended: for each of the eight hypervisor-native state codes the
translation in `GetVirtualMachineStateInfo` produces the correspondingly
named status (with the source's spelling `hybernating` for pm-suspended),
and for every state code outside those eight it does not crash and leaves
the status at the string type's zero value, the empty string. -/
theorem C3_amended_state_translation (env : Env) (vm : String) (s : ProcState)
    (d : DomainId) (di : DomainInfo)
    (hl : env.lookupDomainByName vm = .ok d)
    (hi : env.getInfo (some d) = .ok di) :
    (di.state = 0 → (GetVirtualMachineStateInfo env vm s).1.State = "pending") ∧
    (di.state = 1 → (GetVirtualMachineStateInfo env vm s).1.State = "running") ∧
    (di.state = 2 → (GetVirtualMachineStateInfo env vm s).1.State = "blocked") ∧
    (di.state = 3 → (GetVirtualMachineStateInfo env vm s).1.State = "paused") ∧
    (di.state = 4 → (GetVirtualMachineStateInfo env vm s).1.State = "shutdown") ∧
    (di.state = 5 → (GetVirtualMachineStateInfo env vm s).1.State = "shutoff") ∧
    (di.state = 6 → (GetVirtualMachineStateInfo env vm s).1.State = "crashed") ∧
    (di.state = 7 → (GetVirtualMachineStateInfo env vm s).1.State = "hybernating") ∧
    (8 ≤ di.state → (GetVirtualMachineStateInfo env vm s).1.State = "") := by
  have hstate := congrArg VirtualMachineStateInfo.State
    (GetVirtualMachineStateInfo_fst env vm s d di hl hi)
  refine ⟨?_, ?_, ?_, ?_, ?_, ?_, ?_, ?_, ?_⟩ <;> intro h
  · rw [hstate, h]
    rfl
  · rw [hstate, h]
    rfl
  · rw [hstate, h]
    rfl
  · rw [hstate, h]
    rfl
  · rw [hstate, h]
    rfl
  · rw [hstate, h]
    rfl
  · rw [hstate, h]
    rfl
  · rw [hstate, h]
    rfl
  · have h0 : di.state ≠ 0 := by omega
    have h1 : di.state ≠ 1 := by omega
    have h2 : di.state ≠ 2 := by omega
    have h3 : di.state ≠ 3 := by omega
    have h4 : di.state ≠ 4 := by omega
    have h5 : di.state ≠ 5 := by omega
    have h6 : di.state ≠ 6 := by omega
    have h7 : di.state ≠ 7 := by omega
    rw [hstate]
    simp [DOMAIN_NOSTATE, DOMAIN_RUNNING, DOMAIN_BLOCKED, DOMAIN_PAUSED, DOMAIN_SHUTDOWN,
      DOMAIN_SHUTOFF, DOMAIN_CRASHED, DOMAIN_PMSUSPENDED, h0, h1, h2, h3, h4, h5, h6, h7]

/-- C3 amended, witnessed: code 3 yields `paused`, code 9 yields the
empty-string zero value. -/
theorem C3_amended_witness :
    (GetVirtualMachineStateInfo (envState 3) "vm" initState).1.State = "paused" ∧
    (GetVirtualMachineStateInfo (envState 9) "vm" initState).1.State = "" :=
  ⟨(C3_amended_state_translation (envState 3) "vm" initState 1 (diWithState 3)
      rfl rfl).2.2.2.1 rfl,
   (C3_amended_state_translation (envState 9) "vm" initState 1 (diWithState 9)
      rfl rfl).2.2.2.2.2.2.2.2 (by decide)⟩

/-- C5: on the invocation `--state --vm=testbox` against a VM reporting
native state code 1 (running), memory 2048 KB, max memory 4096 KB,
2 vcpus and cpu time 500, the program writes exactly the JSON document
claimed and exits with status 0. -/
theorem C5_scenarioA :
    (runMain envScenarioA { state := true, vm := "testbox" }).out =
      "\x7b\"State\":\"running\",\"MaxMemoryBytes\":4194304,\"MemoryBytes\":2097152,\"CpuTime\":500,\"CpuCount\":2\x7d" ∧
    (runMain envScenarioA { state := true, vm := "testbox" }).exited = some 0 :=
  ⟨rfl, rfl⟩

/-- C6: the byte fields are exactly the hypervisor-reported kilobyte
figures multiplied by 1024 in `uint64` arithmetic: the product modulo
2^64 always, and the exact product whenever it is representable in 64
unsigned bits. -/
theorem C6_memory_kb_to_bytes (env : Env) (vm : String) (s : ProcState)
    (d : DomainId) (di : DomainInfo)
    (hl : env.lookupDomainByName vm = .ok d)
    (hi : env.getInfo (some d) = .ok di) :
    ((GetVirtualMachineStateInfo env vm s).1.MemoryBytes = di.memory * 1024 % 2 ^ 64 ∧
      (GetVirtualMachineStateInfo env vm s).1.MaxMemoryBytes = di.maxMem * 1024 % 2 ^ 64) ∧
    (di.memory * 1024 < 2 ^ 64 →
      (GetVirtualMachineStateInfo env vm s).1.MemoryBytes = di.memory * 1024) ∧
    (di.maxMem * 1024 < 2 ^ 64 →
      (GetVirtualMachineStateInfo env vm s).1.MaxMemoryBytes = di.maxMem * 1024) := by
  have hfst := GetVirtualMachineStateInfo_fst env vm s d di hl hi
  have hmem : (GetVirtualMachineStateInfo env vm s).1.MemoryBytes =
      di.memory * 1024 % 2 ^ 64 := by
    rw [congrArg VirtualMachineStateInfo.MemoryBytes hfst]
    rfl
  have hmax : (GetVirtualMachineStateInfo env vm s).1.MaxMemoryBytes =
      di.maxMem * 1024 % 2 ^ 64 := by
    rw [congrArg VirtualMachineStateInfo.MaxMemoryBytes hfst]
    rfl
  exact ⟨⟨hmem, hmax⟩,
    fun h => by rw [hmem, Nat.mod_eq_of_lt h],
    fun h => by rw [hmax, Nat.mod_eq_of_lt h]⟩

/-- C6 witnessed on scenario A: 2048 KB and 4096 KB translate exactly. -/
theorem C6_witness :
    2048 * 1024 < 2 ^ 64 ∧
    (GetVirtualMachineStateInfo envScenarioA "testbox" initState).1.MemoryBytes =
      2048 * 1024 ∧
    (GetVirtualMachineStateInfo envScenarioA "testbox" initState).1.MaxMemoryBytes =
      4096 * 1024 :=
  ⟨by norm_num,
   (C6_memory_kb_to_bytes envScenarioA "testbox" initState 1
      { state := 1, maxMem := 4096, memory := 2048, nrVirtCpu := 2, cpuTime := 500 }
      rfl rfl).2.1 (by norm_num),
   (C6_memory_kb_to_bytes envScenarioA "testbox" initState 1
      { state := 1, maxMem := 4096, memory := 2048, nrVirtCpu := 2, cpuTime := 500 }
      rfl rfl).2.2 (by norm_num)⟩

/-- The case `main`'s `switch` takes is the first command in source order
whose flag is set. -/
theorem selectCommand_eq_filter_head (f : Flags) :
    selectCommand f = (cmdOrder.filter (fun c => flagOf f c)).head? := by
  obtain ⟨a1, a2, a3, a4, a5, a6, a7, a8, a9, a10, a11, a12, v, x⟩ := f
  cases a1 <;> cases a2 <;> cases a3 <;> cases a4 <;> cases a5 <;> cases a6 <;>
    cases a7 <;> cases a8 <;> cases a9 <;> cases a10 <;> cases a11 <;> cases a12 <;> rfl

/-- The flags of an invocation with no command flag set (the defaults). -/
def defaultFlags : Flags := {}

/-- C4: `main` runs exactly the handler selected by its `switch`; the
selected case is always the first set flag in the fixed source order
state, soft-reboot, hard-reboot, shutdown, shutoff, start, pause, resume,
create, delete, ips, show-all (in particular, with two or more flags set
exactly that one handler executes); and with no command flag set the run
performs no operation and the process exits with status 0. -/
theorem C4_dispatch_priority :
    (∀ env f, runMain env f =
      match selectCommand f with
      | some c => runCmd env f initState c
      | none => initState) ∧
    (∀ f, selectCommand f = (cmdOrder.filter (fun c => flagOf f c)).head?) ∧
    (∀ env f, 2 ≤ (cmdOrder.filter (fun c => flagOf f c)).length →
      ∃ c, (cmdOrder.filter (fun c => flagOf f c)).head? = some c ∧
        selectCommand f = some c ∧ runMain env f = runCmd env f initState c) ∧
    (∀ env f, (∀ c, flagOf f c = false) →
      runMain env f = initState ∧ processExitCode (runMain env f) = 0) := by
  refine ⟨fun env f => rfl, selectCommand_eq_filter_head, ?_, ?_⟩
  · intro env f h
    obtain ⟨c, hc⟩ : ∃ c, (cmdOrder.filter (fun c => flagOf f c)).head? = some c := by
      cases hcase : cmdOrder.filter (fun c => flagOf f c) with
      | nil =>
        rw [hcase] at h
        simp at h
      | cons a l => exact ⟨a, rfl⟩
    refine ⟨c, hc, (selectCommand_eq_filter_head f).trans hc, ?_⟩
    unfold runMain
    rw [selectCommand_eq_filter_head f, hc]
  · intro env f h
    have hnone : selectCommand f = none := by
      rw [selectCommand_eq_filter_head]
      have hnil : cmdOrder.filter (fun c => flagOf f c) = [] :=
        List.filter_eq_nil_iff.mpr (fun a _ => by rw [h a]; exact Bool.false_ne_true)
      rw [hnil]
      rfl
    constructor
    · unfold runMain
      rw [hnone]
    · exact runMain_exit_zero env f

/-- C4 witnessed: with both `--state` and `--delete` set, only the state
handler (first in priority order) runs; with no flag set, nothing runs
and the exit status is 0. -/
theorem C4_witness :
    (∃ c, (cmdOrder.filter
        (fun c => flagOf { state := true, delete := true, vm := "x" } c)).head? = some c ∧
      selectCommand { state := true, delete := true, vm := "x" } = some c ∧
      runMain failEnv { state := true, delete := true, vm := "x" } =
        runCmd failEnv { state := true, delete := true, vm := "x" } initState c) ∧
    (runMain failEnv defaultFlags = initState ∧
      processExitCode (runMain failEnv defaultFlags) = 0) :=
  ⟨C4_dispatch_priority.2.2.1 failEnv { state := true, delete := true, vm := "x" } (by decide),
   C4_dispatch_priority.2.2.2 failEnv defaultFlags (fun c => by cases c <;> rfl)⟩

/-- The common shape of the eight `hok`-terminated per-VM handlers:
lookup (recorded, error printed), one operation call (recorded, error
printed), then the success report. -/
def vmHandlerShape (vm msg : String) (lookupRes : Except String DomainId)
    (opCall : CapCall) (opErr : Option String) (s : ProcState) : ProcState :=
  hok msg (herr opErr (callCap opCall (herr (exErr lookupRes)
    (callCap (CapCall.lookupDomainByName vm) s))))

theorem vmHandlerShape_props (vm msg : String) (r : Except String DomainId)
    (c2 : CapCall) (e2 : Option String) (m : String) (hr : r = .error m) :
    (vmHandlerShape vm msg r c2 e2 initState).calls.head? =
      some (CapCall.lookupDomainByName vm) ∧
    (vmHandlerShape vm msg r c2 e2 initState).out =
      stripQuotes m ++ "\n" ++ (herrText e2 ++ hokPayload msg) ∧
    (vmHandlerShape vm msg r c2 e2 initState).exited = some 0 := by
  refine ⟨?_, ?_, rfl⟩
  · unfold vmHandlerShape
    rw [hok_calls, herr_calls, callCap_calls, herr_calls, callCap_calls]
    rfl
  · unfold vmHandlerShape
    rw [hok_out, herr_out, callCap_out, herr_out, callCap_out, hr]
    show "" ++ herrText (some m) ++ herrText e2 ++ hokPayload msg = _
    rw [String.empty_append, String.append_assoc]
    rfl

theorem GetVirtualMachineStateInfo_out (env : Env) (vm : String) (s : ProcState) :
    (GetVirtualMachineStateInfo env vm s).2.out =
      s.out ++ herrText (exErr (env.lookupDomainByName vm)) ++
        herrText (exErr (env.getInfo (exDom (env.lookupDomainByName vm)))) := by
  show (herr (exErr (env.getInfo (exDom (env.lookupDomainByName vm))))
    (callCap (CapCall.getInfo (exDom (env.lookupDomainByName vm)))
      (herr (exErr (env.lookupDomainByName vm))
        (callCap (CapCall.lookupDomainByName vm) s)))).out = _
  rw [herr_out, callCap_out, herr_out, callCap_out]

/-- C7: the invocation `--delete --vm=name` against an existing VM whose
undefine call succeeds issues the undefine capability call exactly once,
with the keep-NVRAM flag, and emits the `hok` envelope of exactly the
string `name was deleted`, exiting with status 0. -/
theorem C7_delete_undefine_keep_nvram (env : Env) (vm : String) (d : DomainId)
    (hl : env.lookupDomainByName vm = .ok d)
    (hu : env.undefineFlags (some d) DOMAIN_UNDEFINE_KEEP_NVRAM = .ok ()) :
    (runMain env { delete := true, vm := vm }).calls.filter isUndefineCall =
      [CapCall.undefineFlags (some d) DOMAIN_UNDEFINE_KEEP_NVRAM] ∧
    (runMain env { delete := true, vm := vm }).out = hokPayload (vm ++ " was deleted") ∧
    (runMain env { delete := true, vm := vm }).exited = some 0 := by
  have heq : runMain env { delete := true, vm := vm } =
      vmHandlerShape vm (vm ++ " was deleted") (env.lookupDomainByName vm)
        (CapCall.undefineFlags (exDom (env.lookupDomainByName vm)) DOMAIN_UNDEFINE_KEEP_NVRAM)
        (exErr (env.undefineFlags (exDom (env.lookupDomainByName vm))
          DOMAIN_UNDEFINE_KEEP_NVRAM))
        initState := rfl
  rw [heq, hl]
  simp only [exDom]
  rw [hu]
  refine ⟨?_, ?_, rfl⟩
  · unfold vmHandlerShape
    rw [hok_calls, herr_calls, callCap_calls, herr_calls, callCap_calls]
    rfl
  · unfold vmHandlerShape
    rw [hok_out, herr_out, callCap_out, herr_out, callCap_out]
    rfl

/-- C7 witnessed on a concrete environment where `testbox` exists and the
undefine call succeeds. -/
theorem C7_witness :
    (runMain envDeleteOk { delete := true, vm := "testbox" }).calls.filter isUndefineCall =
      [CapCall.undefineFlags (some 2) DOMAIN_UNDEFINE_KEEP_NVRAM] ∧
    (runMain envDeleteOk { delete := true, vm := "testbox" }).out =
      hokPayload ("testbox" ++ " was deleted") ∧
    (runMain envDeleteOk { delete := true, vm := "testbox" }).exited = some 0 :=
  C7_delete_undefine_keep_nvram envDeleteOk "testbox" 2 rfl rfl

/-- C8 counterexample: on an environment with two active domains, the
`--show-all` handler performs two domain lookups in one invocation,
refuting "at most one domain lookup per handler invocation, including
the enumeration handlers". -/
theorem C8_counterexample :
    ¬ (lookupCount (VirtualMachinesStateAll envTwoDomains initState) ≤ 1) := by
  have h : lookupCount (VirtualMachinesStateAll envTwoDomains initState) = 2 := rfl
  rw [h]
  decide

/-- C8 amended: each of the nine per-VM handlers performs exactly one
domain lookup per invocation; the create handler and the ips enumeration
handler perform none; the show-all enumeration handler performs one
lookup per enumerated domain (name-keyed, not cached); and every state
snapshot issues its own fresh `getInfo` query, never a memoized one. -/
theorem C8_amended_lookup_discipline (env : Env) (vm x : String) (s : ProcState)
    (act inact : List DomainId)
    (ha : env.listAllDomains CONNECT_LIST_DOMAINS_ACTIVE = .ok act)
    (hi : env.listAllDomains CONNECT_LIST_DOMAINS_INACTIVE = .ok inact) :
    (lookupCount (VirtualMachineState env vm s) = lookupCount s + 1 ∧
      lookupCount (VirtualMachineSoftReboot env vm s) = lookupCount s + 1 ∧
      lookupCount (VirtualMachineHardReboot env vm s) = lookupCount s + 1 ∧
      lookupCount (VirtualMachineShutdown env vm s) = lookupCount s + 1 ∧
      lookupCount (VirtualMachineShutoff env vm s) = lookupCount s + 1 ∧
      lookupCount (VirtualMachineStart env vm s) = lookupCount s + 1 ∧
      lookupCount (VirtualMachinePause env vm s) = lookupCount s + 1 ∧
      lookupCount (VirtualMachineResume env vm s) = lookupCount s + 1 ∧
      lookupCount (VirtualMachineDelete env vm s) = lookupCount s + 1) ∧
    lookupCount (VirtualMachineCreate env x s) = lookupCount s ∧
    lookupCount (VirtualMachinesIps env s) = lookupCount s ∧
    lookupCount (VirtualMachinesStateAll env s) =
      lookupCount s + act.length + inact.length ∧
    getInfoCount (GetVirtualMachineStateInfo env vm s).2 = getInfoCount s + 1 :=
  ⟨⟨lookupCount_VirtualMachineState env vm s, lookupCount_VirtualMachineSoftReboot env vm s,
    lookupCount_VirtualMachineHardReboot env vm s, lookupCount_VirtualMachineShutdown env vm s,
    lookupCount_VirtualMachineShutoff env vm s, lookupCount_VirtualMachineStart env vm s,
    lookupCount_VirtualMachinePause env vm s, lookupCount_VirtualMachineResume env vm s,
    lookupCount_VirtualMachineDelete env vm s⟩,
   lookupCount_VirtualMachineCreate env x s,
   lookupCount_VirtualMachinesIps env s,
   lookupCount_VirtualMachinesStateAll env s act inact ha hi,
   getInfoCount_GetVirtualMachineStateInfo env vm s⟩

/-- C8 amended, witnessed: on the two-domain environment, the show-all
handler performs one lookup per enumerated domain (two in total). -/
theorem C8_amended_witness :
    lookupCount (VirtualMachinesStateAll envTwoDomains initState) =
      lookupCount initState + 2 + 0 :=
  (C8_amended_lookup_discipline envTwoDomains "vm" "x" initState [1, 2] []
    rfl rfl).2.2.2.1

/-- C9: for a non-nil error, `herr` writes exactly the error's message
with every embedded double-quote character removed, followed by a
newline, to standard output, changing nothing else; the written message
contains no double quote, and equals the original whenever the original
had none; for a nil error nothing is written. -/
theorem C9_error_message_quote_stripped (msg : String) (s : ProcState) :
    ((herr (some msg) s).out = s.out ++ (stripQuotes msg ++ "\n") ∧
      (herr (some msg) s).exited = s.exited ∧
      (herr (some msg) s).calls = s.calls) ∧
    (stripQuotes msg).data = msg.data.filter (fun c => c ≠ quoteChar) ∧
    quoteChar ∉ (stripQuotes msg).data ∧
    (quoteChar ∉ msg.data → stripQuotes msg = msg) ∧
    herr none s = s := by
  refine ⟨⟨herr_out (some msg) s, herr_exited _ _, herr_calls _ _⟩, rfl, ?_, ?_, rfl⟩
  · simp [stripQuotes]
  · intro h
    obtain ⟨l⟩ := msg
    show String.mk (l.filter fun c => c ≠ quoteChar) = String.mk l
    have : l.filter (fun c => decide (c ≠ quoteChar)) = l :=
      List.filter_eq_self.mpr fun a ha =>
        decide_eq_true (fun hq : a = quoteChar => h (hq ▸ ha))
    rw [this]

/-- C9 witnessed on concrete messages with and without a double quote. -/
theorem C9_witness :
    stripQuotes "abc" = "abc" ∧
    (herr (some "abc") initState).out = "" ++ (stripQuotes "abc" ++ "\n") ∧
    herr none initState = initState :=
  ⟨(C9_error_message_quote_stripped "abc" initState).2.2.2.1 (by decide),
   (C9_error_message_quote_stripped "abc" initState).1.1,
   (C9_error_message_quote_stripped "abc" initState).2.2.2.2⟩

/-- C10: for every VM-requiring command flag set without `--vm`, the
handler still runs with the empty string as the VM name: the first
capability call of the run is a lookup of the empty name, a failing
lookup surfaces through the ordinary error path as the first output
line (no separate usage or argument-validation error precedes it), and
the run still terminates through the success reporter with exit 0. -/
theorem C10_omitted_vm_defaults_to_empty (env : Env) (c : Cmd) (hc : c ∈ vmCmds)
    (m : String) (he : env.lookupDomainByName "" = .error m) :
    (runMain env (onlyFlag c)).calls.head? = some (CapCall.lookupDomainByName "") ∧
    (∃ rest, (runMain env (onlyFlag c)).out = stripQuotes m ++ "\n" ++ rest) ∧
    (runMain env (onlyFlag c)).exited = some 0 := by
  simp only [vmCmds, List.mem_cons, List.not_mem_nil, or_false] at hc
  rcases hc with rfl | rfl | rfl | rfl | rfl | rfl | rfl | rfl | rfl
  · refine ⟨?_, ⟨herrText (exErr (env.getInfo (exDom (env.lookupDomainByName "")))) ++
      marshalStateInfo (GetVirtualMachineStateInfo env "" initState).1, ?_⟩, rfl⟩
    · show (GetVirtualMachineStateInfo env "" initState).2.calls.head? = _
      rw [GetVirtualMachineStateInfo_calls]
      rfl
    · show (hret (marshalStateInfo (GetVirtualMachineStateInfo env "" initState).1)
        (GetVirtualMachineStateInfo env "" initState).2).out = _
      rw [hret_out, GetVirtualMachineStateInfo_out, he]
      show "" ++ herrText (some m) ++ _ ++ _ = _
      rw [String.empty_append, String.append_assoc]
      rfl
  · have heq : runMain env (onlyFlag Cmd.softReboot) =
        vmHandlerShape "" ("" ++ " was soft-rebooted successfully") (env.lookupDomainByName "")
          (CapCall.rebootDom (exDom (env.lookupDomainByName "")) DOMAIN_REBOOT_DEFAULT)
          (exErr (env.rebootDom (exDom (env.lookupDomainByName "")) DOMAIN_REBOOT_DEFAULT))
          initState := rfl
    rw [heq]
    obtain ⟨h1, h2, h3⟩ := vmHandlerShape_props _ _ _ _ _ m he
    exact ⟨h1, ⟨_, h2⟩, h3⟩
  · have heq : runMain env (onlyFlag Cmd.hardReboot) =
        vmHandlerShape "" ("" ++ " was hard-rebooted successfully") (env.lookupDomainByName "")
          (CapCall.resetDom (exDom (env.lookupDomainByName "")) 0)
          (exErr (env.resetDom (exDom (env.lookupDomainByName "")) 0))
          initState := rfl
    rw [heq]
    obtain ⟨h1, h2, h3⟩ := vmHandlerShape_props _ _ _ _ _ m he
    exact ⟨h1, ⟨_, h2⟩, h3⟩
  · have heq : runMain env (onlyFlag Cmd.shutdown) =
        vmHandlerShape "" ("" ++ " was shutdown successfully") (env.lookupDomainByName "")
          (CapCall.shutdownDom (exDom (env.lookupDomainByName "")))
          (exErr (env.shutdownDom (exDom (env.lookupDomainByName ""))))
          initState := rfl
    rw [heq]
    obtain ⟨h1, h2, h3⟩ := vmHandlerShape_props _ _ _ _ _ m he
    exact ⟨h1, ⟨_, h2⟩, h3⟩
  · have heq : runMain env (onlyFlag Cmd.shutoff) =
        vmHandlerShape "" ("" ++ " was shutoff successfully") (env.lookupDomainByName "")
          (CapCall.destroyDom (exDom (env.lookupDomainByName "")))
          (exErr (env.destroyDom (exDom (env.lookupDomainByName ""))))
          initState := rfl
    rw [heq]
    obtain ⟨h1, h2, h3⟩ := vmHandlerShape_props _ _ _ _ _ m he
    exact ⟨h1, ⟨_, h2⟩, h3⟩
  · have heq : runMain env (onlyFlag Cmd.start) =
        vmHandlerShape "" ("" ++ " was started") (env.lookupDomainByName "")
          (CapCall.createDom (exDom (env.lookupDomainByName "")))
          (exErr (env.createDom (exDom (env.lookupDomainByName ""))))
          initState := rfl
    rw [heq]
    obtain ⟨h1, h2, h3⟩ := vmHandlerShape_props _ _ _ _ _ m he
    exact ⟨h1, ⟨_, h2⟩, h3⟩
  · have heq : runMain env (onlyFlag Cmd.pause) =
        vmHandlerShape "" ("" ++ " is paused") (env.lookupDomainByName "")
          (CapCall.suspendDom (exDom (env.lookupDomainByName "")))
          (exErr (env.suspendDom (exDom (env.lookupDomainByName ""))))
          initState := rfl
    rw [heq]
    obtain ⟨h1, h2, h3⟩ := vmHandlerShape_props _ _ _ _ _ m he
    exact ⟨h1, ⟨_, h2⟩, h3⟩
  · have heq : runMain env (onlyFlag Cmd.resume) =
        vmHandlerShape "" ("" ++ " was resumed") (env.lookupDomainByName "")
          (CapCall.resumeDom (exDom (env.lookupDomainByName "")))
          (exErr (env.resumeDom (exDom (env.lookupDomainByName ""))))
          initState := rfl
    rw [heq]
    obtain ⟨h1, h2, h3⟩ := vmHandlerShape_props _ _ _ _ _ m he
    exact ⟨h1, ⟨_, h2⟩, h3⟩
  · have heq : runMain env (onlyFlag Cmd.delete) =
        vmHandlerShape "" ("" ++ " was deleted") (env.lookupDomainByName "")
          (CapCall.undefineFlags (exDom (env.lookupDomainByName ""))
            DOMAIN_UNDEFINE_KEEP_NVRAM)
          (exErr (env.undefineFlags (exDom (env.lookupDomainByName ""))
            DOMAIN_UNDEFINE_KEEP_NVRAM))
          initState := rfl
    rw [heq]
    obtain ⟨h1, h2, h3⟩ := vmHandlerShape_props _ _ _ _ _ m he
    exact ⟨h1, ⟨_, h2⟩, h3⟩

/-- C10 witnessed: `--delete` with `--vm` omitted on an environment where
looking up the empty name fails. -/
theorem C10_witness :
    (runMain envTwoErrors (onlyFlag Cmd.delete)).calls.head? =
      some (CapCall.lookupDomainByName "") ∧
    (∃ rest, (runMain envTwoErrors (onlyFlag Cmd.delete)).out =
      stripQuotes "lookup failed" ++ "\n" ++ rest) ∧
    (runMain envTwoErrors (onlyFlag Cmd.delete)).exited = some 0 :=
  C10_omitted_vm_defaults_to_empty envTwoErrors Cmd.delete (by decide) "lookup failed" rfl

end LibvirtHelper
